import Mathlib

/-!
Verification development for the collaborative music player
(`app/services.py`, `app/main.py`).

The embedding models the SQLAlchemy-backed data as plain Lean structures:

* `CollabSession.playlist_items` stands for the `playlist_items`
  relationship, which is declared with `order_by="PlaylistItem.position"`;
  the stored list is therefore kept in position-column order, which every
  operation below re-establishes exactly the way the Python code does
  (renumbering a position-sorted copy).
* `HTTPException`s become an `Except Err` result.  Every error raised by
  the Python functions modelled here is raised before any object is
  mutated, so an `.error` result with the caller keeping its old state is
  a faithful rendering of the exception propagating out of the handler.
* Wall-clock fields (`playback_updated_at`, audit-log timestamps) and the
  append-only `RequestLog` rows are outside the scope of the claims and
  are omitted.
-/

namespace MusicPlayer

/-- `PlaylistItem` row (`app/models.py` / constructor call in
`services.add_playlist_item`). -/
structure PlaylistItem where
  id : String
  track_id : String
  title : String
  media_path : String
  media_type : String
  duration_seconds : Option Int
  position : Nat
deriving Repr, DecidableEq

/-- `CollabSession` row: playback columns plus the position-ordered
`playlist_items` relationship. -/
structure CollabSession where
  id : String
  code : String
  host_id : String
  playback_track_id : Option String
  playback_position_ms : Int
  playback_state : String
  playlist_items : List PlaylistItem
deriving Repr, DecidableEq

/-- The JSON `payload` column of a `PlaylistRequestEntry`, projected onto
the keys the application reads.  A `none` field models an absent key. -/
structure RequestPayload where
  track_id : Option String := none
  name : Option String := none
  media_path : Option String := none
  media_type : Option String := none
  duration_seconds : Option Int := none
  item_id : Option String := none
  new_position : Option Int := none
deriving Repr, DecidableEq

/-- `PlaylistRequestEntry` row. -/
structure PlaylistRequestEntry where
  id : String
  session_id : String
  requester_id : String
  request_type : String
  payload : RequestPayload
  status : String
  reason : Option String
deriving Repr, DecidableEq

/-- `User` row. -/
structure User where
  id : String
  name : String
  role : String
  token : String
  session_id : Option String
deriving Repr, DecidableEq

/-- Error taxonomy of the application (HTTP status codes raised by the
handlers, plus Python `KeyError` for a missing payload key and pydantic
validation failure).  `conflict` (HTTP 409) appears in the spec's
taxonomy; the code never raises it. -/
inductive Err where
  | unauthorized
  | forbidden
  | notFound
  | badRequest
  | conflict
  | keyError
  | validation
deriving Repr, DecidableEq

/-- Broadcast event types emitted to the session's websocket listeners. -/
inductive Event where
  | playlist_update
  | playback_state
  | request_update
deriving Repr, DecidableEq

instance exceptDecEq {ε α : Type} [DecidableEq ε] [DecidableEq α] :
    DecidableEq (Except ε α) := fun x y =>
  match x, y with
  | .ok a, .ok b =>
    if h : a = b then .isTrue (by rw [h])
    else .isFalse (by intro hc; injection hc; contradiction)
  | .error a, .error b =>
    if h : a = b then .isTrue (by rw [h])
    else .isFalse (by intro hc; injection hc; contradiction)
  | .ok _, .error _ => .isFalse (fun hc => Except.noConfusion hc)
  | .error _, .ok _ => .isFalse (fun hc => Except.noConfusion hc)

/-- Python `sorted(items, key=lambda e: e.position)` — a stable sort by
the position column. -/
def sortByPosition (items : List PlaylistItem) : List PlaylistItem :=
  items.insertionSort (fun a b => a.position ≤ b.position)

/-- `for index, entry in enumerate(items): entry.position = index`,
starting the counter at `n`. -/
def renumberFrom (n : Nat) : List PlaylistItem → List PlaylistItem
  | [] => []
  | x :: xs => { x with position := n } :: renumberFrom (n + 1) xs

/-- Dense renumbering of a list of items in list order (counter 0). -/
def renumber (items : List PlaylistItem) : List PlaylistItem :=
  renumberFrom 0 items

/-- Python `list.insert(n, x)` for `0 ≤ n` (appends when `n ≥ length`). -/
def insertAt {α : Type} : Nat → α → List α → List α
  | 0, x, l => x :: l
  | _ + 1, x, [] => [x]
  | n + 1, x, a :: l => a :: insertAt n x l

/-- `services.add_playlist_item`: append at `position = len(playlist)`;
if `playback_track_id is None`, point it at the new track.  `item_id` is
the generated primary key of the new row. -/
def add_playlist_item (session : CollabSession) (item_id track_id name media_path media_type : String)
    (duration_seconds : Option Int) : CollabSession × PlaylistItem :=
  let position := session.playlist_items.length
  let item : PlaylistItem :=
    ⟨item_id, track_id, name, media_path, media_type, duration_seconds, position⟩
  let track := match session.playback_track_id with
    | none => some track_id
    | some t => some t
  ({ session with
      playlist_items := session.playlist_items ++ [item]
      playback_track_id := track }, item)

/-- `services.reorder_playlist`: sort by position, range-check
`new_position` first, then locate the item, remove it, reinsert at
`new_position` and renumber densely. -/
def reorder_playlist (session : CollabSession) (item_id : String) (new_position : Int) :
    Except Err CollabSession :=
  let items := sortByPosition session.playlist_items
  if new_position < 0 ∨ (items.length : Int) ≤ new_position then
    .error .badRequest
  else
    match items.find? (fun e => e.id = item_id) with
    | none => .error .notFound
    | some item =>
      let removed := items.eraseP (fun e => e.id = item_id)
      let reinserted := insertAt new_position.toNat item removed
      .ok { session with playlist_items := renumber reinserted }

/-- `services.remove_playlist_item`: locate the item (404 when absent),
drop it, renumber the position-sorted remainder, and if the removed row
carried the current playback track, re-point playback at `remaining[0]`
(first remaining row in relationship order) or `None`. -/
def remove_playlist_item (session : CollabSession) (item_id : String) :
    Except Err CollabSession :=
  match session.playlist_items.find? (fun e => e.id = item_id) with
  | none => .error .notFound
  | some item =>
    let remaining := session.playlist_items.filter (fun e => e.id ≠ item_id)
    let track := if session.playback_track_id = some item.track_id then
        remaining.head?.map (fun e => e.track_id)
      else
        session.playback_track_id
    .ok { session with
        playlist_items := renumber (sortByPosition remaining)
        playback_track_id := track }

/-- `services.apply_request`: interpret the request's `type`/`payload` as
one of add / reorder / remove.  A missing required payload key is a
Python `KeyError`; an unknown type is HTTP 400. -/
def apply_request (session : CollabSession) (request : PlaylistRequestEntry)
    (fresh_item_id : String) : Except Err CollabSession :=
  let payload := request.payload
  if request.request_type = "add" then
    match payload.track_id, payload.name, payload.media_path, payload.media_type with
    | some tid, some nm, some mp, some mt =>
      .ok (add_playlist_item session fresh_item_id tid nm mp mt payload.duration_seconds).1
    | _, _, _, _ => .error .keyError
  else if request.request_type = "reorder" then
    match payload.item_id, payload.new_position with
    | some iid, some np => reorder_playlist session iid np
    | _, _ => .error .keyError
  else if request.request_type = "remove" then
    match payload.item_id with
    | some iid => remove_playlist_item session iid
    | none => .error .keyError
  else
    .error .badRequest

/-- The persisted store the REST / websocket handlers see: all sessions
and all playlist requests, keyed by their generated ids. -/
structure ServerState where
  sessions : List CollabSession
  requests : List PlaylistRequestEntry
deriving Repr, DecidableEq

/-- `db.get(CollabSession, sid)`. -/
def findSession (st : ServerState) (sid : String) : Option CollabSession :=
  st.sessions.find? (fun s => s.id = sid)

/-- `db.get(PlaylistRequestEntry, rid)`. -/
def findRequest (st : ServerState) (rid : String) : Option PlaylistRequestEntry :=
  st.requests.find? (fun r => r.id = rid)

/-- Committing a mutated session row back to the store. -/
def setSession (st : ServerState) (s : CollabSession) : ServerState :=
  { st with sessions := st.sessions.map (fun t => if t.id = s.id then s else t) }

/-- Committing a mutated request row back to the store. -/
def setRequest (st : ServerState) (r : PlaylistRequestEntry) : ServerState :=
  { st with requests := st.requests.map (fun t => if t.id = r.id then r else t) }

/-- Overwrite the `status` column of request `rid` (used to state that
the resolution endpoints never read it). -/
def setRequestStatus (st : ServerState) (rid s : String) : ServerState :=
  { st with requests :=
      st.requests.map (fun r => if r.id = rid then { r with status := s } else r) }

/-- REST `POST /requests/{request_id}/approve` (`main.approve_request`):
role check, request lookup, session lookup, host-of-that-session check,
then `apply_request` followed by flipping the status to `approved`.
`fresh_item_id` is the primary key generated for an added row. -/
def approve_request (st : ServerState) (actor : User) (request_id : String)
    (reason : Option String) (fresh_item_id : String) : Except Err ServerState :=
  if actor.role ≠ "host" then .error .forbidden
  else
    match findRequest st request_id with
    | none => .error .notFound
    | some request =>
      match findSession st request.session_id with
      | none => .error .notFound
      | some session =>
        if session.host_id ≠ actor.id then .error .forbidden
        else
          match apply_request session request fresh_item_id with
          | .error e => .error e
          | .ok session2 =>
            .ok (setRequest (setSession st session2)
                  { request with status := "approved", reason := reason })

/-- REST `POST /requests/{request_id}/deny` (`main.deny_request`): same
checks, sets status `denied`, never touches the playlist. -/
def deny_request (st : ServerState) (actor : User) (request_id : String)
    (reason : Option String) : Except Err ServerState :=
  if actor.role ≠ "host" then .error .forbidden
  else
    match findRequest st request_id with
    | none => .error .notFound
    | some request =>
      match findSession st request.session_id with
      | none => .error .notFound
      | some session =>
        if session.host_id ≠ actor.id then .error .forbidden
        else
          .ok (setRequest st { request with status := "denied", reason := reason })

/-- An `HTTPException` leaves the store as it was (every raise in the
modelled handlers precedes any mutation): run the approve endpoint and
return the resulting store together with the error, if any. -/
def run_approve (st : ServerState) (actor : User) (request_id : String)
    (reason : Option String) (fresh_item_id : String) : ServerState × Option Err :=
  match approve_request st actor request_id reason fresh_item_id with
  | .ok st2 => (st2, none)
  | .error e => (st, some e)

/-- Same wrapper for the deny endpoint. -/
def run_deny (st : ServerState) (actor : User) (request_id : String)
    (reason : Option String) : ServerState × Option Err :=
  match deny_request st actor request_id reason with
  | .ok st2 => (st2, none)
  | .error e => (st, some e)

/-- `schemas.PlaybackCommand` after pydantic validation. -/
structure PlaybackCommand where
  action : String
  track_id : Option String
  position_ms : Option Int
deriving Repr, DecidableEq

/-- The inbound websocket payload dict, projected onto the keys the
handler reads (a `none` field models an absent key). -/
structure WsPayload where
  action : Option String := none
  track_id : Option String := none
  position_ms : Option Int := none
  request_id : Option String := none
  reason : Option String := none
  request_type : Option String := none
  request_payload : Option RequestPayload := none
deriving Repr, DecidableEq

/-- `schemas.MessageEnvelope`. -/
structure MessageEnvelope where
  type : String
  payload : WsPayload
deriving Repr, DecidableEq

/-- The `state_update` dict built by the `playback_command` branch: each
present key overwrites the corresponding playback column.  The
`track_id` key, when present, may itself carry `None`. -/
structure StateUpdate where
  track_id : Option (Option String) := none
  position_ms : Option Int := none
  state : Option String := none
deriving Repr, DecidableEq

/-- `main.update_playback_state` (timestamp column omitted). -/
def update_playback_state (session : CollabSession) (u : StateUpdate) : CollabSession :=
  { session with
      playback_track_id := (match u.track_id with
        | some t => t
        | none => session.playback_track_id)
      playback_position_ms := u.position_ms.getD session.playback_position_ms
      playback_state := u.state.getD session.playback_state }

/-- Python truthiness of an optional string: `None` and `""` are falsy. -/
def isTruthyStr : Option String → Bool
  | none => false
  | some s => s ≠ ""

/-- `PlaybackCommand(**envelope.payload)`: pydantic requires `action` to
match `^(play|pause|seek|skip_next|skip_prev)$` and `position_ms ≥ 0`. -/
def parsePlaybackCommand (p : WsPayload) : Except Err PlaybackCommand :=
  match p.action with
  | none => .error .validation
  | some a =>
    if a = "play" ∨ a = "pause" ∨ a = "seek" ∨ a = "skip_next" ∨ a = "skip_prev" then
      match p.position_ms with
      | some ms => if ms < 0 then .error .validation else .ok ⟨a, p.track_id, some ms⟩
      | none => .ok ⟨a, p.track_id, none⟩
    else .error .validation

/-- Index of the current track within the position-sorted items
(`main.py` lines 474-482): `if session.playback_track_id and items:`
find the first entry with that `track_id`, defaulting to 0 on
`StopIteration`; in every other case (falsy track ref — `None` or the
empty string — or no items) the index is 0. -/
def skipIndex (playback_track_id : Option String) (items : List PlaylistItem) : Nat :=
  match playback_track_id with
  | some t =>
    if t ≠ "" ∧ items ≠ [] then
      (items.findIdx? (fun e => e.track_id = t)).getD 0
    else 0
  | none => 0

/-- The `state_update` dict built by the `playback_command` branch
(`main.py` lines 461-489), as a function of the session and the parsed
command. -/
def playbackStateUpdate (session : CollabSession) (command : PlaybackCommand) : StateUpdate :=
  let u0 : StateUpdate := {}
  let u1 := if (command.action = "play" ∨ command.action = "seek") ∧
      isTruthyStr command.track_id then
      { u0 with track_id := some command.track_id }
    else u0
  let u2 := match command.position_ms with
    | some ms => { u1 with position_ms := some ms }
    | none => u1
  if command.action = "play" then { u2 with state := some "playing" }
  else if command.action = "pause" then { u2 with state := some "paused" }
  else if command.action = "seek" then { u2 with state := some session.playback_state }
  else if command.action = "skip_next" ∨ command.action = "skip_prev" then
    let items := sortByPosition session.playlist_items
    let index := skipIndex session.playback_track_id items
    let index2 :=
      if command.action = "skip_next" ∧ items ≠ [] then
        min (index + 1) (items.length - 1)
      else if command.action = "skip_prev" ∧ items ≠ [] then
        index - 1
      else index
    let newTrack : Option String := match items.get? index2 with
      | some e => some e.track_id
      | none => none
    { u2 with
        track_id := some newTrack
        position_ms := some 0
        state := some session.playback_state }
  else u2

/-- The `playback_command` branch of `main.handle_websocket_message`:
role check, pydantic parse, build the `state_update` dict and apply it.
Returns the mutated session and the broadcast events. -/
def handle_playback_command (session : CollabSession) (actor : User) (p : WsPayload) :
    Except Err (CollabSession × List Event) :=
  if actor.role ≠ "host" then .error .forbidden
  else
    match parsePlaybackCommand p with
    | .error e => .error e
    | .ok command =>
      .ok (update_playback_state session (playbackStateUpdate session command),
        [Event.playback_state])

/-- `main.handle_websocket_message`: dispatch on the envelope type.
`session` is the session of the websocket's path (`ensure_session` on
`session_id`), `fresh_id` the generated id for a created row.  Returns
the new store and the list of events broadcast, in order. -/
def handle_websocket_message (st : ServerState) (session : CollabSession) (actor : User)
    (envelope : MessageEnvelope) (fresh_id : String) :
    Except Err (ServerState × List Event) :=
  if envelope.type = "playback_command" then
    match handle_playback_command session actor envelope.payload with
    | .error e => .error e
    | .ok (session2, events) => .ok (setSession st session2, events)
  else if envelope.type = "request_playlist_change" then
    if actor.role ≠ "guest" then .error .forbidden
    else
      match envelope.payload.request_type, envelope.payload.request_payload with
      | some rt, some rp =>
        let request : PlaylistRequestEntry :=
          ⟨fresh_id, session.id, actor.id, rt, rp, "pending", none⟩
        .ok ({ st with requests := st.requests ++ [request] }, [Event.request_update])
      | _, _ => .error .keyError
  else if envelope.type = "approve_request" ∨ envelope.type = "deny_request" then
    if actor.role ≠ "host" then .error .forbidden
    else
      match (match envelope.payload.request_id with
             | some rid => findRequest st rid
             | none => none) with
      | none => .error .notFound
      | some request =>
        if envelope.type = "approve_request" then
          match apply_request session request fresh_id with
          | .error e => .error e
          | .ok session2 =>
            .ok (setRequest (setSession st session2)
                  { request with status := "approved", reason := envelope.payload.reason },
                [Event.playlist_update, Event.request_update])
        else
          .ok (setRequest st
                { request with status := "denied", reason := envelope.payload.reason },
              [Event.playlist_update, Event.request_update])
  else if envelope.type = "sync_ack" then
    .ok (st, [])
  else
    .error .badRequest

/-- Events of a websocket handler result (empty list when it errored). -/
def wsEvents (x : Except Err (ServerState × List Event)) : List Event :=
  match x with
  | .ok (_, events) => events
  | .error _ => []

/-- A single playlist mutation, as dispatched by the host endpoints or by
an approved request. -/
inductive PlaylistOp where
  | add (item_id track_id name media_path media_type : String) (duration : Option Int)
  | remove (item_id : String)
  | reorder (item_id : String) (new_position : Int)
deriving Repr, DecidableEq

/-- Apply one mutation to a session; a raised `HTTPException` leaves the
session untouched. -/
def applyOp (session : CollabSession) : PlaylistOp → CollabSession
  | .add iid tid nm mp mt d => (add_playlist_item session iid tid nm mp mt d).1
  | .remove iid =>
    (match remove_playlist_item session iid with
     | .ok s => s
     | .error _ => session)
  | .reorder iid np =>
    (match reorder_playlist session iid np with
     | .ok s => s
     | .error _ => session)

/-- The playlist-position invariant: the stored (relationship-ordered)
item list carries positions exactly `0, 1, …, n-1` in order. -/
def validPositions (items : List PlaylistItem) : Prop :=
  items.map (fun e => e.position) = List.range items.length

/-- The claim's phrasing of the invariant: the multiset of positions is
exactly `{0, …, n-1}` — no gaps, no duplicates. -/
def positionsExact (items : List PlaylistItem) : Prop :=
  (items.map (fun e => e.position)).Perm (List.range items.length)

instance (l : List PlaylistItem) : Decidable (validPositions l) := by
  unfold validPositions
  exact inferInstance

instance (l : List PlaylistItem) : Decidable (positionsExact l) := by
  unfold positionsExact
  exact inferInstance

/-! ### Concrete sample data for witnesses and counterexamples -/

/-- Playlist item with title equal to its track id and fixed media
metadata. -/
def sampleItem (i t : String) (p : Nat) : PlaylistItem :=
  ⟨i, t, t, "m", "audio/mpeg", none, p⟩

/-- Session `s1` hosted by `h1` with three tracks a, b, c at positions
0, 1, 2 and current track `a`. -/
def sessABC : CollabSession :=
  ⟨"s1", "CODE", "h1", some "a", 0, "paused",
    [sampleItem "iA" "a" 0, sampleItem "iB" "b" 1, sampleItem "iC" "c" 2]⟩

/-- The host user of session `s1`. -/
def hostA : User := ⟨"h1", "Host", "host", "tok", some "s1"⟩

/-- `sessABC` after `reorder_playlist _ "iC" 0`. -/
def reorderedABC : CollabSession :=
  ⟨"s1", "CODE", "h1", some "a", 0, "paused",
    [sampleItem "iC" "c" 0, sampleItem "iA" "a" 1, sampleItem "iB" "b" 2]⟩

/-- `sessABC` after `remove_playlist_item _ "iA"`. -/
def removedAResult : CollabSession :=
  ⟨"s1", "CODE", "h1", some "b", 0, "paused",
    [sampleItem "iB" "b" 0, sampleItem "iC" "c" 1]⟩

/-- A freshly created session: empty playlist, no current track. -/
def sessFresh : CollabSession := ⟨"s1", "CODE", "h1", none, 0, "paused", []⟩

/-- `sessFresh` after the host posts `{"track_id": "X"}` to the playback
endpoint (which calls `update_playback_state`): the playlist is still
empty but the current-track reference is non-null. -/
def sessX : CollabSession := update_playback_state sessFresh { track_id := some (some "X") }

/-- Session like `sessABC` but whose current track reference is the
empty string, and whose middle item has `track_id = ""`. -/
def sessEmptyTrack : CollabSession :=
  ⟨"s1", "CODE", "h1", some "", 0, "paused",
    [sampleItem "iA" "a" 0, sampleItem "iB" "" 1, sampleItem "iC" "c" 2]⟩

/-- Payload of an `add` request for track `t9`. -/
def addPayload : RequestPayload :=
  { track_id := some "t9", name := some "N", media_path := some "m",
    media_type := some "audio/mpeg" }

/-- An `add` request on session `s1` that is already in the terminal
state `approved`. -/
def reqApproved : PlaylistRequestEntry :=
  ⟨"r1", "s1", "g1", "add", addPayload, "approved", none⟩

/-- Store with the fresh session `s1` and the already-approved request. -/
def st3 : ServerState := ⟨[sessFresh], [reqApproved]⟩

/-- Result of approving `reqApproved` a second time: the add mutation is
applied (again) and the status is overwritten. -/
def st3Result : ServerState :=
  ⟨[⟨"s1", "CODE", "h1", some "t9", 0, "paused",
      [⟨"i9", "t9", "N", "m", "audio/mpeg", none, 0⟩]⟩],
   [⟨"r1", "s1", "g1", "add", addPayload, "approved", none⟩]⟩

/-- A pending `remove` request on session `s1`. -/
def reqPending : PlaylistRequestEntry :=
  ⟨"r1", "s1", "g1", "remove", { item_id := some "iA" }, "pending", none⟩

/-- Store with session `s1` (three tracks) and the pending request. -/
def st5 : ServerState := ⟨[sessABC], [reqPending]⟩

/-- A second session `s2` hosted by a different user `h2`. -/
def sessB : CollabSession := ⟨"s2", "CODE2", "h2", none, 0, "paused", []⟩

/-- An `add` request belonging to session `s2`. -/
def reqOfB : PlaylistRequestEntry := ⟨"r2", "s2", "g2", "add", addPayload, "pending", none⟩

/-- Store with both sessions and the request of `s2`. -/
def st9 : ServerState := ⟨[sessFresh, sessB], [reqOfB]⟩

/-- Result of the host of `s1` approving `s2`'s request over the
websocket connected to `s1`: the add lands in `s1`'s playlist. -/
def st9Result : ServerState :=
  ⟨[⟨"s1", "CODE", "h1", some "t9", 0, "paused",
      [⟨"i7", "t9", "N", "m", "audio/mpeg", none, 0⟩]⟩, sessB],
   [⟨"r2", "s2", "g2", "add", addPayload, "approved", none⟩]⟩

/-- A sample sequence of playlist operations: two adds, a reorder, a
removal. -/
def sampleOps : List PlaylistOp :=
  [PlaylistOp.add "i1" "t1" "A" "m" "audio/mpeg" none,
   PlaylistOp.add "i2" "t2" "B" "m" "audio/mpeg" none,
   PlaylistOp.reorder "i2" 0,
   PlaylistOp.remove "i1"]

/-- A pending request with a type unknown to `apply_request`. -/
def reqUnknown : PlaylistRequestEntry := ⟨"rb", "s1", "g1", "noop", {}, "pending", none⟩

/-- Store with session `s1` (three tracks) and the unknown-type request. -/
def stBad : ServerState := ⟨[sessABC], [reqUnknown]⟩

/-! ### Spec-side definitions for the skip commands (refinement targets) -/

/-- Follows the claim's words (C6): «let i be the index of the current
track in the position-sorted playlist (i = 0 if the current track is
null or not found)». -/
def claimSkipIndex (playback_track_id : Option String) (items : List PlaylistItem) : Nat :=
  match playback_track_id with
  | none => 0
  | some t => (items.findIdx? (fun e => e.track_id = t)).getD 0

/-- Follows the claim's words (C6): new current track for a skip action
— the item at index `min(i+1, n-1)` for `skip_next` or `max(i-1, 0)` for
`skip_prev`, null on an empty playlist. -/
def claimSkipTarget (session : CollabSession) (action : String) : Option String :=
  let items := sortByPosition session.playlist_items
  if items.isEmpty then none
  else
    let i := claimSkipIndex session.playback_track_id items
    let j := if action = "skip_next" then min (i + 1) (items.length - 1) else i - 1
    (items.get? j).map (fun e => e.track_id)

/-- The amended index rule: as the claim, except that an empty-string
current track also falls back to index 0 (Python truthiness of
`session.playback_track_id`). -/
def amendedSkipIndex (playback_track_id : Option String) (items : List PlaylistItem) : Nat :=
  match playback_track_id with
  | none => 0
  | some t => if t = "" then 0 else (items.findIdx? (fun e => e.track_id = t)).getD 0

/-- The amended skip target: as the claim, with the amended index rule. -/
def amendedSkipTarget (session : CollabSession) (action : String) : Option String :=
  let items := sortByPosition session.playlist_items
  if items.isEmpty then none
  else
    let i := amendedSkipIndex session.playback_track_id items
    let j := if action = "skip_next" then min (i + 1) (items.length - 1) else i - 1
    (items.get? j).map (fun e => e.track_id)

/-! ### Helper lemmas about renumbering, sorting and insertion -/

theorem renumberFrom_map_position (n : Nat) (l : List PlaylistItem) :
    (renumberFrom n l).map (fun e => e.position) = List.range' n l.length := by
  induction l generalizing n with
  | nil => simp [renumberFrom]
  | cons a t ih => simp [renumberFrom, List.range'_succ, ih]

theorem renumberFrom_length (n : Nat) (l : List PlaylistItem) :
    (renumberFrom n l).length = l.length := by
  induction l generalizing n with
  | nil => rfl
  | cons a t ih => simp [renumberFrom, ih]

theorem validPositions_renumber (l : List PlaylistItem) : validPositions (renumber l) := by
  unfold validPositions renumber
  rw [renumberFrom_map_position, renumberFrom_length, List.range_eq_range']

theorem renumberFrom_map_id (n : Nat) (l : List PlaylistItem) :
    (renumberFrom n l).map (fun e => e.id) = l.map (fun e => e.id) := by
  induction l generalizing n with
  | nil => rfl
  | cons a t ih => simp [renumberFrom, ih]

theorem renumberFrom_headTrack (n : Nat) (l : List PlaylistItem) :
    (renumberFrom n l).head?.map (fun e => e.track_id)
      = l.head?.map (fun e => e.track_id) := by
  cases l <;> simp [renumberFrom]

theorem insertAt_map {α β : Type} (f : α → β) (n : Nat) (x : α) (l : List α) :
    (insertAt n x l).map f = insertAt n (f x) (l.map f) := by
  induction l generalizing n with
  | nil => cases n <;> simp [insertAt]
  | cons a t ih => cases n <;> simp [insertAt, ih]

theorem erase_insertAt (n : Nat) (x : String) (l : List String) (h : x ∉ l) :
    (insertAt n x l).erase x = l := by
  induction l generalizing n with
  | nil => cases n <;> simp [insertAt]
  | cons a t ih =>
    cases n with
    | zero => simp [insertAt]
    | succ m =>
      have hax : a ≠ x := fun he => h (he ▸ List.mem_cons_self a t)
      have hxt : x ∉ t := fun hm => h (List.mem_cons_of_mem _ hm)
      simp [insertAt, List.erase_cons, hax, ih m hxt]

theorem map_id_eraseP (x : String) (l : List PlaylistItem) :
    (l.eraseP (fun e => e.id = x)).map (fun e => e.id)
      = (l.map (fun e => e.id)).erase x := by
  induction l with
  | nil => rfl
  | cons a t ih =>
    by_cases h : a.id = x <;>
      simp [List.eraseP_cons, List.erase_cons, h, ih]

theorem sortByPosition_length (l : List PlaylistItem) :
    (sortByPosition l).length = l.length :=
  List.length_insertionSort _ l

theorem sortByPosition_perm (l : List PlaylistItem) : (sortByPosition l).Perm l :=
  List.perm_insertionSort _ l

theorem validPositions_sorted (l : List PlaylistItem) (h : validPositions l) :
    l.Sorted (fun a b => a.position ≤ b.position) := by
  unfold validPositions at h
  have : List.Pairwise (fun a b => a ≤ b) (l.map (fun e => e.position)) := by
    rw [h]; exact List.pairwise_le_range _
  exact List.pairwise_map.mp this

theorem sortByPosition_eq_self (l : List PlaylistItem)
    (h : l.Sorted (fun a b => a.position ≤ b.position)) : sortByPosition l = l :=
  List.Sorted.insertionSort_eq h

/-! ### C1: the dense-position invariant is preserved -/

theorem add_playlist_item_valid (s : CollabSession)
    (iid tid nm mp mt : String) (d : Option Int)
    (h : validPositions s.playlist_items) :
    validPositions ((add_playlist_item s iid tid nm mp mt d).1.playlist_items) := by
  unfold validPositions at h ⊢
  simp only [add_playlist_item, List.map_append, List.length_append, List.map_cons,
    List.map_nil, List.length_cons, List.length_nil]
  rw [h]
  simpa using (List.range_succ s.playlist_items.length).symm

theorem reorder_playlist_valid (s : CollabSession) (iid : String) (np : Int)
    (r : CollabSession) (h : reorder_playlist s iid np = .ok r) :
    validPositions r.playlist_items := by
  unfold reorder_playlist at h
  dsimp only at h
  split at h
  · exact absurd h (by simp)
  · split at h
    · exact absurd h (by simp)
    · rename_i item hfind
      injection h with h2
      rw [← h2]
      exact validPositions_renumber _

theorem remove_playlist_item_valid (s : CollabSession) (iid : String)
    (r : CollabSession) (h : remove_playlist_item s iid = .ok r) :
    validPositions r.playlist_items := by
  unfold remove_playlist_item at h
  split at h
  · exact absurd h (by simp)
  · injection h with h2
    rw [← h2]
    exact validPositions_renumber _

theorem applyOp_valid (s : CollabSession) (op : PlaylistOp)
    (h : validPositions s.playlist_items) :
    validPositions ((applyOp s op).playlist_items) := by
  cases op with
  | add iid tid nm mp mt d => exact add_playlist_item_valid s iid tid nm mp mt d h
  | remove iid =>
    simp only [applyOp]
    cases hr : remove_playlist_item s iid with
    | ok s2 => exact remove_playlist_item_valid s iid s2 hr
    | error e => exact h
  | reorder iid np =>
    simp only [applyOp]
    cases hr : reorder_playlist s iid np with
    | ok s2 => exact reorder_playlist_valid s iid np s2 hr
    | error e => exact h

/-- C1: for every session and every sequence of add / remove / reorder
operations, after each operation the playlist positions are exactly
`0..n-1` — no gaps, no duplicates (every intermediate state is itself of
the form `ops.foldl applyOp s`, so the statement covers each step of the
sequence). -/
theorem C1_positions_invariant (s : CollabSession) (ops : List PlaylistOp)
    (h : validPositions s.playlist_items) :
    validPositions ((ops.foldl applyOp s).playlist_items) ∧
    positionsExact ((ops.foldl applyOp s).playlist_items) := by
  have hv : validPositions ((ops.foldl applyOp s).playlist_items) := by
    induction ops generalizing s with
    | nil => exact h
    | cons op rest ih =>
      simpa [List.foldl_cons] using ih (applyOp s op) (applyOp_valid s op h)
  refine ⟨hv, ?_⟩
  unfold positionsExact
  unfold validPositions at hv
  rw [hv]

/-! ### C2: reorder preserves the relative order of the other items -/

/-- C2: a successful reorder of `iid` to a valid position preserves the
relative order of all other items — the id sequence of the result (which
is position-ordered) with the moved id deleted equals the position-sorted
id sequence before the reorder with the moved id deleted. -/
theorem C2_reorder_stable (s : CollabSession) (iid : String) (np : Int)
    (r : CollabSession)
    (hnd : (s.playlist_items.map (fun e => e.id)).Nodup)
    (h : reorder_playlist s iid np = .ok r) :
    (r.playlist_items.map (fun e => e.id)).erase iid
      = ((sortByPosition s.playlist_items).map (fun e => e.id)).erase iid := by
  unfold reorder_playlist at h
  dsimp only at h
  split at h
  · exact absurd h (by simp)
  · split at h
    · exact absurd h (by simp)
    · rename_i item hfind
      injection h with h2
      rw [← h2]
      have hid : item.id = iid := by simpa using List.find?_some hfind
      have hL : ((sortByPosition s.playlist_items).map (fun e => e.id)).Nodup :=
        (((sortByPosition_perm s.playlist_items).map (fun e => e.id)).nodup_iff).mpr hnd
      have hnotmem :
          iid ∉ ((sortByPosition s.playlist_items).map (fun e => e.id)).erase iid := by
        intro hmem
        exact absurd rfl ((hL.mem_erase_iff.mp hmem).1)
      show ((renumber _).map (fun e => e.id)).erase iid = _
      rw [renumber, renumberFrom_map_id, insertAt_map, hid, map_id_eraseP]
      exact erase_insertAt _ _ _ hnotmem

/-! ### C7: removal only retargets the playback track reference -/

/-- C7: a successful `removeItem` leaves `position_ms` and the playback
mode untouched; if the removed item carried the current playback track
the reference becomes the first item of the remaining position-ordered
playlist (`none` when the playlist is now empty), otherwise it is
unchanged. -/
theorem C7_remove_playback (s : CollabSession) (iid : String) (r : CollabSession)
    (hv : validPositions s.playlist_items)
    (h : remove_playlist_item s iid = .ok r) :
    r.playback_position_ms = s.playback_position_ms ∧
    r.playback_state = s.playback_state ∧
    ∀ item, s.playlist_items.find? (fun e => e.id = iid) = some item →
      (s.playback_track_id = some item.track_id →
        r.playback_track_id = r.playlist_items.head?.map (fun e => e.track_id)) ∧
      (s.playback_track_id ≠ some item.track_id →
        r.playback_track_id = s.playback_track_id) := by
  unfold remove_playlist_item at h
  split at h
  · exact absurd h (by simp)
  · rename_i item0 hfind0
    injection h with h2
    rw [← h2]
    refine ⟨rfl, rfl, ?_⟩
    intro item hfind
    rw [hfind0] at hfind
    injection hfind with hitem
    rw [← hitem]
    constructor
    · intro hc
      have hsorted := validPositions_sorted _ hv
      have hsf : (s.playlist_items.filter (fun e => e.id ≠ iid)).Sorted
          (fun a b => a.position ≤ b.position) :=
        List.Pairwise.filter _ hsorted
      show (if s.playback_track_id = some item0.track_id then _ else _) = _
      rw [if_pos hc]
      show _ = ((renumber (sortByPosition _)).head?.map (fun e => e.track_id))
      rw [sortByPosition_eq_self _ hsf, renumber, renumberFrom_headTrack]
    · intro hc
      show (if s.playback_track_id = some item0.track_id then _ else _) = _
      rw [if_neg hc]

/-! ### C10: the range check precedes the existence check -/

/-- C10: `reorder` checks `new_position` against `[0, len-1]` before it
looks the item up, so an out-of-range position yields `BadRequest` even
for an absent `item_id`, and on an empty playlist every reorder fails
with `BadRequest`, never `NotFound`. -/
theorem C10_range_check_first (s : CollabSession) (iid : String) (np : Int) :
    ((np < 0 ∨ (s.playlist_items.length : Int) ≤ np) →
      reorder_playlist s iid np = .error .badRequest) ∧
    (s.playlist_items = [] → reorder_playlist s iid np = .error .badRequest) := by
  constructor
  · intro h
    unfold reorder_playlist
    dsimp only
    rw [if_pos]
    rwa [sortByPosition_length]
  · intro h
    unfold reorder_playlist
    dsimp only
    rw [if_pos]
    rw [sortByPosition_length, h]
    simp only [List.length_nil, Nat.cast_zero]
    omega

/-! ### C3: resolution endpoints never read the request status -/

theorem apply_request_status_irrel (s : CollabSession) (r : PlaylistRequestEntry)
    (x f : String) : apply_request s { r with status := x } f = apply_request s r f := rfl

theorem reorder_ne_conflict (s : CollabSession) (iid : String) (np : Int) :
    reorder_playlist s iid np ≠ .error .conflict := by
  unfold reorder_playlist
  dsimp only
  split
  · simp
  · split <;> simp

theorem remove_ne_conflict (s : CollabSession) (iid : String) :
    remove_playlist_item s iid ≠ .error .conflict := by
  unfold remove_playlist_item
  split <;> simp

theorem apply_request_ne_conflict (s : CollabSession) (r : PlaylistRequestEntry)
    (f : String) : apply_request s r f ≠ .error .conflict := by
  unfold apply_request
  dsimp only
  split
  · split <;> simp
  · split
    · split
      · exact reorder_ne_conflict s _ _
      · simp
    · split
      · split
        · exact remove_ne_conflict s _
        · simp
      · simp

theorem findRequest_setRequestStatus (st : ServerState) (rid stat : String) :
    findRequest (setRequestStatus st rid stat) rid
      = (findRequest st rid).map (fun r => { r with status := stat }) := by
  show (st.requests.map _).find? _ = (st.requests.find? _).map _
  induction st.requests with
  | nil => rfl
  | cons a t ih =>
    by_cases h : a.id = rid
    · simp only [List.map_cons, if_pos h]
      rw [List.find?_cons_of_pos _ (by simpa using h),
        List.find?_cons_of_pos _ (by simpa using h)]
      rfl
    · simp only [List.map_cons, if_neg h]
      rw [List.find?_cons_of_neg _ (by simpa using h),
        List.find?_cons_of_neg _ (by simpa using h)]
      exact ih

theorem setRequest_setRequestStatus (st : ServerState) (rid stat : String)
    (q : PlaylistRequestEntry) (hq : q.id = rid) :
    setRequest (setRequestStatus st rid stat) q = setRequest st q := by
  have hfun : ((fun t => if t.id = q.id then q else t) ∘
      (fun r : PlaylistRequestEntry => if r.id = rid then { r with status := stat } else r))
      = (fun t => if t.id = q.id then q else t) := by
    funext t
    by_cases h : t.id = rid
    · simp [Function.comp, h, hq]
    · simp [Function.comp, h, hq]
  unfold setRequest setRequestStatus
  simp only [List.map_map, hfun]

theorem findRequest_some_id (st : ServerState) (rid : String)
    (r : PlaylistRequestEntry) (h : findRequest st rid = some r) : r.id = rid := by
  simpa using List.find?_some h

/-- C3 (amended): the resolution endpoints never check the stored status
— approving or denying a request whose status has been overwritten with
any value (terminal or not) behaves exactly as it would on a `pending`
request, re-applying the encoded mutation on approve; and neither
endpoint ever fails with `Conflict`. -/
theorem C3_resolution_ignores_status (st : ServerState) (actor : User) (rid : String)
    (reason : Option String) (fresh stat : String) :
    approve_request (setRequestStatus st rid stat) actor rid reason fresh
      = approve_request (setRequestStatus st rid "pending") actor rid reason fresh ∧
    deny_request (setRequestStatus st rid stat) actor rid reason
      = deny_request (setRequestStatus st rid "pending") actor rid reason ∧
    approve_request st actor rid reason fresh ≠ .error .conflict ∧
    deny_request st actor rid reason ≠ .error .conflict := by
  refine ⟨?_, ?_, ?_, ?_⟩
  · unfold approve_request
    by_cases hr : actor.role = "host"
    · simp only [hr, ne_eq, not_true_eq_false, if_false]
      rw [findRequest_setRequestStatus, findRequest_setRequestStatus]
      cases hfr : findRequest st rid with
      | none => rfl
      | some r =>
        simp only [Option.map_some']
        have hq : ({ r with status := "approved", reason := reason } :
            PlaylistRequestEntry).id = rid := findRequest_some_id st rid r hfr
        have e1 : findSession (setRequestStatus st rid stat) r.session_id
            = findSession st r.session_id := rfl
        have e2 : findSession (setRequestStatus st rid "pending") r.session_id
            = findSession st r.session_id := rfl
        rw [e1, e2]
        cases hfs : findSession st r.session_id with
        | none => rfl
        | some session =>
          by_cases hh : session.host_id = actor.id
          · simp only [hh, ne_eq, not_true_eq_false, if_false]
            have ha1 : apply_request session { r with status := stat } fresh
                = apply_request session r fresh := apply_request_status_irrel _ _ _ _
            have ha2 : apply_request session { r with status := "pending" } fresh
                = apply_request session r fresh := apply_request_status_irrel _ _ _ _
            rw [ha1, ha2]
            cases happly : apply_request session r fresh with
            | error e => rfl
            | ok s2 =>
              show Except.ok (setRequest (setRequestStatus (setSession st s2) rid stat) _)
                = Except.ok (setRequest (setRequestStatus (setSession st s2) rid "pending") _)
              rw [setRequest_setRequestStatus _ _ _ _ hq,
                setRequest_setRequestStatus _ _ _ _ hq]
          · simp [hh]
    · simp [hr]
  · unfold deny_request
    by_cases hr : actor.role = "host"
    · simp only [hr, ne_eq, not_true_eq_false, if_false]
      rw [findRequest_setRequestStatus, findRequest_setRequestStatus]
      cases hfr : findRequest st rid with
      | none => rfl
      | some r =>
        simp only [Option.map_some']
        have hq : ({ r with status := "denied", reason := reason } :
            PlaylistRequestEntry).id = rid := findRequest_some_id st rid r hfr
        have e1 : findSession (setRequestStatus st rid stat) r.session_id
            = findSession st r.session_id := rfl
        have e2 : findSession (setRequestStatus st rid "pending") r.session_id
            = findSession st r.session_id := rfl
        rw [e1, e2]
        cases hfs : findSession st r.session_id with
        | none => rfl
        | some session =>
          by_cases hh : session.host_id = actor.id
          · simp only [hh, ne_eq, not_true_eq_false, if_false]
            show Except.ok (setRequest (setRequestStatus st rid stat) _)
              = Except.ok (setRequest (setRequestStatus st rid "pending") _)
            rw [setRequest_setRequestStatus _ _ _ _ hq,
              setRequest_setRequestStatus _ _ _ _ hq]
          · simp [hh]
    · simp [hr]
  · unfold approve_request
    split
    · simp
    · split
      · simp
      · split
        · simp
        · split
          · simp
          · intro hc
            split at hc
            · rename_i e heq
              injection hc with he
              exact apply_request_ne_conflict _ _ _ (he ▸ heq)
            · exact Except.noConfusion hc
  · unfold deny_request
    split
    · simp
    · split
      · simp
      · split
        · simp
        · split
          · simp
          · simp

/-- C3 counterexample: request `r1` of `st3` is already in the terminal
state `approved`, yet a second approve by the session's host succeeds —
it does not fail with `Conflict` — and re-applies the encoded add
mutation (the playlist of session `s1` grows to one item again). -/
theorem C3_counterexample :
    (findRequest st3 "r1").map (fun r => r.status) = some "approved" ∧
    approve_request st3 hostA "r1" none "i9" = .ok st3Result ∧
    approve_request st3 hostA "r1" none "i9" ≠ .error .conflict ∧
    st3Result.sessions.map (fun s => s.playlist_items.length) = [1] ∧
    st3.sessions.map (fun s => s.playlist_items.length) = [0] := by
  exact ⟨by decide, by decide, by decide, by decide, by decide⟩

/-- C3 witness: the status-independence theorem applied to the concrete
store `st3` with the terminal status `"approved"`. -/
theorem C3_witness :
    approve_request (setRequestStatus st3 "r1" "approved") hostA "r1" none "i9"
      = approve_request (setRequestStatus st3 "r1" "pending") hostA "r1" none "i9" ∧
    deny_request (setRequestStatus st3 "r1" "approved") hostA "r1" none
      = deny_request (setRequestStatus st3 "r1" "pending") hostA "r1" none ∧
    approve_request st3 hostA "r1" none "i9" ≠ .error .conflict ∧
    deny_request st3 hostA "r1" none ≠ .error .conflict :=
  C3_resolution_ignores_status st3 hostA "r1" none "i9" "approved"

/-! ### C4: a failing mutation leaves the approval unapplied -/

/-- C4: when the encoded mutation of a request cannot be applied —
unknown type (`BadRequest`), reorder position out of range
(`BadRequest`), reorder/remove of an absent item (`NotFound`) — the
approve endpoint surfaces exactly that error and the store is returned
unchanged: the request is not marked approved and the playlist is
untouched. -/
theorem C4_approve_atomic_on_error (st : ServerState) (actor : User) (rid : String)
    (reason : Option String) (fresh : String) (r : PlaylistRequestEntry)
    (session : CollabSession)
    (hrole : actor.role = "host")
    (hr : findRequest st rid = some r)
    (hs : findSession st r.session_id = some session)
    (hh : session.host_id = actor.id) :
    (∀ e, apply_request session r fresh = .error e →
      run_approve st actor rid reason fresh = (st, some e)) ∧
    (r.request_type ≠ "add" → r.request_type ≠ "reorder" → r.request_type ≠ "remove" →
      apply_request session r fresh = .error .badRequest) ∧
    (∀ iid np, r.request_type = "reorder" → r.payload.item_id = some iid →
      r.payload.new_position = some np →
      (np < 0 ∨ (session.playlist_items.length : Int) ≤ np) →
      apply_request session r fresh = .error .badRequest) ∧
    (∀ iid np, r.request_type = "reorder" → r.payload.item_id = some iid →
      r.payload.new_position = some np →
      0 ≤ np → np < (session.playlist_items.length : Int) →
      (∀ e ∈ session.playlist_items, e.id ≠ iid) →
      apply_request session r fresh = .error .notFound) ∧
    (∀ iid, r.request_type = "remove" → r.payload.item_id = some iid →
      (∀ e ∈ session.playlist_items, e.id ≠ iid) →
      apply_request session r fresh = .error .notFound) := by
  refine ⟨?_, ?_, ?_, ?_, ?_⟩
  · intro e he
    unfold run_approve approve_request
    simp only [hrole, ne_eq, not_true_eq_false, if_false, hr, hs, hh, he]
  · intro h1 h2 h3
    unfold apply_request
    simp [h1, h2, h3]
  · intro iid np ht hiid hnp hrange
    unfold apply_request
    simp only [ht, hiid, hnp]
    have : ¬("reorder" = "add") := by decide
    simp only [this, if_false, reduceIte]
    unfold reorder_playlist
    dsimp only
    rw [if_pos]
    rwa [sortByPosition_length]
  · intro iid np ht hiid hnp hlo hhi habsent
    unfold apply_request
    simp only [ht, hiid, hnp]
    have : ¬("reorder" = "add") := by decide
    simp only [this, if_false, reduceIte]
    unfold reorder_playlist
    dsimp only
    have hrange : ¬(np < 0 ∨ ((sortByPosition session.playlist_items).length : Int) ≤ np) := by
      rw [sortByPosition_length]
      omega
    rw [if_neg hrange]
    have hfind : (sortByPosition session.playlist_items).find?
        (fun e => e.id = iid) = none := by
      rw [List.find?_eq_none]
      intro x hx
      have hmem : x ∈ session.playlist_items :=
        (sortByPosition_perm session.playlist_items).mem_iff.mp hx
      simpa using habsent x hmem
    rw [hfind]
  · intro iid ht hiid habsent
    unfold apply_request
    simp only [ht, hiid]
    have h1 : ¬("remove" = "add") := by decide
    have h2 : ¬("remove" = "reorder") := by decide
    simp only [h1, h2, if_false, reduceIte]
    unfold remove_playlist_item
    have hfind : session.playlist_items.find? (fun e => e.id = iid) = none := by
      rw [List.find?_eq_none]
      intro x hx
      simpa using habsent x hx
    rw [hfind]

/-- C4 witness: approving the unknown-type request `rb` of `stBad`
fails with `BadRequest` and leaves the store unchanged. -/
theorem C4_witness :
    hostA.role = "host" ∧
    findRequest stBad "rb" = some reqUnknown ∧
    findSession stBad reqUnknown.session_id = some sessABC ∧
    sessABC.host_id = hostA.id ∧
    run_approve stBad hostA "rb" none "f" = (stBad, some .badRequest) := by
  refine ⟨by decide, by decide, by decide, by decide, ?_⟩
  exact (C4_approve_atomic_on_error stBad hostA "rb" none "f" reqUnknown sessABC
    (by decide) (by decide) (by decide) (by decide)).1 .badRequest (by decide)

/-! ### Websocket resolution helpers (shared by C5 and C9) -/

theorem ws_resolution_deny (st : ServerState) (session : CollabSession) (actor : User)
    (p : WsPayload) (fresh rid : String) (r : PlaylistRequestEntry)
    (hrole : actor.role = "host") (hrid : p.request_id = some rid)
    (hr : findRequest st rid = some r) :
    handle_websocket_message st session actor ⟨"deny_request", p⟩ fresh
      = .ok (setRequest st { r with status := "denied", reason := p.reason },
             [Event.playlist_update, Event.request_update]) := by
  unfold handle_websocket_message
  dsimp only
  rw [if_neg (by decide), if_neg (by decide), if_pos (by decide),
    if_neg (by simp [hrole])]
  rw [hrid]
  dsimp only
  rw [hr]
  dsimp only
  rw [if_neg (by decide)]

theorem ws_resolution_approve (st : ServerState) (session : CollabSession) (actor : User)
    (p : WsPayload) (fresh rid : String) (r : PlaylistRequestEntry) (s2 : CollabSession)
    (hrole : actor.role = "host") (hrid : p.request_id = some rid)
    (hr : findRequest st rid = some r)
    (ha : apply_request session r fresh = .ok s2) :
    handle_websocket_message st session actor ⟨"approve_request", p⟩ fresh
      = .ok (setRequest (setSession st s2)
              { r with status := "approved", reason := p.reason },
             [Event.playlist_update, Event.request_update]) := by
  unfold handle_websocket_message
  dsimp only
  rw [if_neg (by decide), if_neg (by decide), if_pos (by decide),
    if_neg (by simp [hrole])]
  rw [hrid]
  dsimp only
  rw [hr]
  dsimp only
  rw [if_pos (by decide), ha]

/-- C5 counterexample: on the concrete store `st5` the websocket handler
processes a `deny_request` and broadcasts `playlist_update` as well as
`request_update` — not only `request_update` as the claim states. -/
theorem C5_counterexample :
    wsEvents (handle_websocket_message st5 sessABC hostA
        ⟨"deny_request", { request_id := some "r1" }⟩ "f")
      = [Event.playlist_update, Event.request_update] ∧
    Event.playlist_update ∈ wsEvents (handle_websocket_message st5 sessABC hostA
        ⟨"deny_request", { request_id := some "r1" }⟩ "f") ∧
    wsEvents (handle_websocket_message st5 sessABC hostA
        ⟨"deny_request", { request_id := some "r1" }⟩ "f")
      ≠ [Event.request_update] := by
  exact ⟨by decide, by decide, by decide⟩

/-- C5 (amended): the live protocol handler broadcasts `playlist_update`
followed by `request_update` for BOTH resolutions — for every processed
`deny_request` as well as for every successful `approve_request` (the
two message types share the broadcast tail in the handler). -/
theorem C5_resolution_broadcasts (st : ServerState) (session : CollabSession)
    (actor : User) (p : WsPayload) (fresh rid : String) (r : PlaylistRequestEntry)
    (hrole : actor.role = "host") (hrid : p.request_id = some rid)
    (hr : findRequest st rid = some r) :
    wsEvents (handle_websocket_message st session actor ⟨"deny_request", p⟩ fresh)
      = [Event.playlist_update, Event.request_update] ∧
    (∀ s2, apply_request session r fresh = .ok s2 →
      wsEvents (handle_websocket_message st session actor ⟨"approve_request", p⟩ fresh)
        = [Event.playlist_update, Event.request_update]) := by
  constructor
  · rw [ws_resolution_deny st session actor p fresh rid r hrole hrid hr]
    rfl
  · intro s2 ha
    rw [ws_resolution_approve st session actor p fresh rid r s2 hrole hrid hr ha]
    rfl

/-- C5 witness: the amended broadcast theorem applied to the concrete
store `st5`, for the denial and for a successful approval of the pending
remove request. -/
theorem C5_witness :
    hostA.role = "host" ∧
    (({ request_id := some "r1" } : WsPayload)).request_id = some "r1" ∧
    findRequest st5 "r1" = some reqPending ∧
    apply_request sessABC reqPending "f" = .ok removedAResult ∧
    wsEvents (handle_websocket_message st5 sessABC hostA
        ⟨"deny_request", { request_id := some "r1" }⟩ "f")
      = [Event.playlist_update, Event.request_update] ∧
    wsEvents (handle_websocket_message st5 sessABC hostA
        ⟨"approve_request", { request_id := some "r1" }⟩ "f")
      = [Event.playlist_update, Event.request_update] := by
  refine ⟨by decide, by decide, by decide, by decide, ?_, ?_⟩
  · exact (C5_resolution_broadcasts st5 sessABC hostA { request_id := some "r1" } "f"
      "r1" reqPending (by decide) (by decide) (by decide)).1
  · exact (C5_resolution_broadcasts st5 sessABC hostA { request_id := some "r1" } "f"
      "r1" reqPending (by decide) (by decide) (by decide)).2 removedAResult (by decide)

/-! ### C9: the websocket path never checks the request's session -/

/-- C9 counterexample: `hostA` is the host of session `s1` only, and
request `r2` belongs to session `s2`; over the websocket connected to
`s1` the approval succeeds instead of failing with `Forbidden` — the
request is marked approved and the add mutation lands in `s1`'s
playlist, not `s2`'s. -/
theorem C9_counterexample :
    sessFresh.host_id = hostA.id ∧
    reqOfB.session_id = "s2" ∧
    sessFresh.id = "s1" ∧
    sessB.host_id ≠ hostA.id ∧
    handle_websocket_message st9 sessFresh hostA
        ⟨"approve_request", { request_id := some "r2" }⟩ "i7"
      = .ok (st9Result, [Event.playlist_update, Event.request_update]) ∧
    (findRequest st9Result "r2").map (fun r => r.status) = some "approved" ∧
    (findSession st9Result "s1").map (fun s => s.playlist_items.length) = some 1 ∧
    (findSession st9Result "s2").map (fun s => s.playlist_items.length) = some 0 := by
  exact ⟨by decide, by decide, by decide, by decide, by decide, by decide, by decide,
    by decide⟩

/-- C9 (amended): on the REST path a resolution by a host who is not the
host of the request's session fails with `Forbidden` and leaves the
store unchanged; on the websocket path the request's session is never
compared with the connected session — any actor with the host role whose
message names an existing request gets it resolved (shown for deny),
regardless of which session the request belongs to. -/
theorem C9_resolver_checks (st : ServerState) (actor : User) (rid : String)
    (reason : Option String) (fresh : String) (r : PlaylistRequestEntry)
    (session : CollabSession) (stw : ServerState) (sessionw : CollabSession)
    (actorw : User) (p : WsPayload) (freshw ridw : String) (rw : PlaylistRequestEntry) :
    (actor.role = "host" → findRequest st rid = some r →
      findSession st r.session_id = some session → session.host_id ≠ actor.id →
      run_approve st actor rid reason fresh = (st, some .forbidden) ∧
      run_deny st actor rid reason = (st, some .forbidden)) ∧
    (actorw.role = "host" → p.request_id = some ridw →
      findRequest stw ridw = some rw →
      handle_websocket_message stw sessionw actorw ⟨"deny_request", p⟩ freshw
        = .ok (setRequest stw { rw with status := "denied", reason := p.reason },
               [Event.playlist_update, Event.request_update])) := by
  constructor
  · intro hrole hr hs hh
    constructor
    · unfold run_approve approve_request
      simp only [hrole, ne_eq, not_true_eq_false, if_false, hr, hs, hh, if_true,
        not_false_eq_true, reduceIte]
    · unfold run_deny deny_request
      simp only [hrole, ne_eq, not_true_eq_false, if_false, hr, hs, hh, if_true,
        not_false_eq_true, reduceIte]
  · intro hrole hrid hr
    exact ws_resolution_deny stw sessionw actorw p freshw ridw rw hrole hrid hr

/-- C9 witness: the checks theorem applied to the concrete store `st9`
(REST: `hostA` cannot resolve `s2`'s request; websocket: the same host,
connected to their own session `s1`, denies `s2`'s request anyway). -/
theorem C9_witness :
    hostA.role = "host" ∧
    findRequest st9 "r2" = some reqOfB ∧
    findSession st9 reqOfB.session_id = some sessB ∧
    sessB.host_id ≠ hostA.id ∧
    run_approve st9 hostA "r2" none "f" = (st9, some .forbidden) ∧
    run_deny st9 hostA "r2" none = (st9, some .forbidden) ∧
    handle_websocket_message st9 sessFresh hostA
        ⟨"deny_request", { request_id := some "r2" }⟩ "f"
      = .ok (setRequest st9 { reqOfB with status := "denied", reason := none },
             [Event.playlist_update, Event.request_update]) := by
  have h := C9_resolver_checks st9 hostA "r2" none "f" reqOfB sessB st9 sessFresh hostA
    { request_id := some "r2" } "f" "r2" reqOfB
  have h1 := h.1 (by decide) (by decide) (by decide) (by decide)
  have h2 := h.2 (by decide) (by decide) (by decide)
  exact ⟨by decide, by decide, by decide, by decide, h1.1, h1.2, h2⟩

/-! ### C6: skip commands (clamping, reset, empty-string corner) -/

theorem skipIndex_eq_amended (ptid : Option String) (items : List PlaylistItem)
    (h : items ≠ []) : skipIndex ptid items = amendedSkipIndex ptid items := by
  cases ptid with
  | none => rfl
  | some t =>
    by_cases ht : t = "" <;> simp [skipIndex, amendedSkipIndex, ht, h]

/-- C6 counterexample: in `sessEmptyTrack` the current track is the
empty string and the item with `track_id = ""` sits at sorted index 1;
the claim's rule picks index 1 and `skip_next` should land on track `c`,
but the code treats the falsy `""` as absent (index 0) and lands on the
`""` track — the playback state is otherwise unchanged. -/
theorem C6_counterexample :
    sessEmptyTrack.playback_track_id = some "" ∧
    handle_playback_command sessEmptyTrack hostA { action := some "skip_next" }
      = .ok (sessEmptyTrack, [Event.playback_state]) ∧
    sessEmptyTrack.playback_track_id = some "" ∧
    claimSkipTarget sessEmptyTrack "skip_next" = some "c" ∧
    sessEmptyTrack.playback_track_id ≠ claimSkipTarget sessEmptyTrack "skip_next" := by
  exact ⟨by decide, by decide, by decide, by decide, by decide⟩

/-- C6 (amended): for a parsed `skip_next`/`skip_prev` playback command
from the host, the handler sets the current track to the item at the
clamped index (no wraparound), resets `position_ms` to 0 and leaves the
mode unchanged — where the index of the current track falls back to 0
when the current track is null, the EMPTY STRING, or not found; on an
empty playlist the new current track is null. -/
theorem playbackStateUpdate_skip (session : CollabSession) (cmd : PlaybackCommand)
    (hact : cmd.action = "skip_next" ∨ cmd.action = "skip_prev") :
    playbackStateUpdate session cmd
      = { track_id := some (amendedSkipTarget session cmd.action)
          position_ms := some 0
          state := some session.playback_state } := by
  obtain ⟨a, tid, pms⟩ := cmd
  simp only at hact
  have htrack : ∀ j,
      (match (sortByPosition session.playlist_items).get? j with
        | some e => some e.track_id
        | none => none)
      = ((sortByPosition session.playlist_items).get? j).map (fun e => e.track_id) := by
    intro j
    cases (sortByPosition session.playlist_items).get? j <;> rfl
  obtain ha | ha := hact <;> subst ha
  · unfold playbackStateUpdate
    simp only [String.reduceEq, false_or, or_false, or_self, false_and, if_false,
      reduceIte, true_and, ne_eq]
    by_cases hempty : sortByPosition session.playlist_items = []
    · rw [if_neg (by simp [hempty]), htrack]
      unfold amendedSkipTarget
      rw [hempty]
      cases pms <;> rfl
    · rw [if_pos hempty, htrack, skipIndex_eq_amended _ _ hempty]
      unfold amendedSkipTarget
      dsimp only
      rw [if_neg (by simpa [List.isEmpty_iff] using hempty)]
      simp only [String.reduceEq, if_true, reduceIte]
  · unfold playbackStateUpdate
    simp only [String.reduceEq, false_or, or_false, or_self, false_and, if_false,
      reduceIte, true_and, ne_eq]
    by_cases hempty : sortByPosition session.playlist_items = []
    · rw [if_neg (by simp [hempty]), htrack]
      unfold amendedSkipTarget
      rw [hempty]
      cases pms <;> rfl
    · rw [if_pos hempty, htrack, skipIndex_eq_amended _ _ hempty]
      unfold amendedSkipTarget
      dsimp only
      rw [if_neg (by simpa [List.isEmpty_iff] using hempty)]
      simp only [String.reduceEq, if_false, reduceIte]

theorem C6_skip_semantics (session : CollabSession) (actor : User) (p : WsPayload)
    (cmd : PlaybackCommand)
    (hrole : actor.role = "host")
    (hp : parsePlaybackCommand p = .ok cmd)
    (hact : cmd.action = "skip_next" ∨ cmd.action = "skip_prev") :
    handle_playback_command session actor p
      = .ok ({ session with
                playback_track_id := amendedSkipTarget session cmd.action
                playback_position_ms := 0 }, [Event.playback_state]) ∧
    (session.playlist_items = [] → amendedSkipTarget session cmd.action = none) := by
  constructor
  · unfold handle_playback_command
    rw [if_neg (by simp [hrole]), hp]
    dsimp only
    rw [playbackStateUpdate_skip session cmd hact]
    rfl
  · intro h
    unfold amendedSkipTarget
    dsimp only
    rw [if_pos (by rw [h]; rfl)]

/-- C6 witness: the skip theorem applied to the concrete session
`sessABC` (current track `a`, `skip_next` lands on `b`, position reset
to 0, mode untouched). -/
theorem C6_witness :
    hostA.role = "host" ∧
    parsePlaybackCommand { action := some "skip_next" }
      = .ok ⟨"skip_next", none, none⟩ ∧
    handle_playback_command sessABC hostA { action := some "skip_next" }
      = .ok ({ sessABC with
                playback_track_id := amendedSkipTarget sessABC "skip_next"
                playback_position_ms := 0 }, [Event.playback_state]) ∧
    amendedSkipTarget sessABC "skip_next" = some "b" := by
  refine ⟨by decide, by decide, ?_, by decide⟩
  exact (C6_skip_semantics sessABC hostA { action := some "skip_next" }
    ⟨"skip_next", none, none⟩ (by decide) (by decide) (Or.inl rfl)).1

/-! ### C8: the auto-select condition on addItem -/

/-- C8 counterexample: `sessX` is reachable from a fresh session via the
host playback endpoint (`update_playback_state` with
`{"track_id": "X"}`); its playlist is empty, so the next add is the
session's first playlist item, yet the current track is NOT set to the
new item's track — the code's guard is `playback_track_id is None`, not
«playlist was empty». -/
theorem C8_counterexample :
    sessX = update_playback_state sessFresh { track_id := some (some "X") } ∧
    sessX.playlist_items = [] ∧
    (add_playlist_item sessX "i1" "t1" "Name" "m" "audio/mpeg" none).2.track_id = "t1" ∧
    (add_playlist_item sessX "i1" "t1" "Name" "m" "audio/mpeg" none).1.playback_track_id
      = some "X" ∧
    (add_playlist_item sessX "i1" "t1" "Name" "m" "audio/mpeg" none).1.playback_track_id
      ≠ some "t1" := by
  exact ⟨rfl, by decide, by decide, by decide, by decide⟩

/-- C8 (amended): `addItem` appends the new item at position equal to
the playlist length and never changes the playback mode; the current
track is set to the new item's track exactly when the session's current
track reference was null before the call (true on a session's first-ever
add, but not whenever a track reference exists on an empty playlist). -/
theorem C8_add_semantics (session : CollabSession) (iid tid nm mp mt : String)
    (d : Option Int) :
    (add_playlist_item session iid tid nm mp mt d).1.playlist_items
      = session.playlist_items ++ [(add_playlist_item session iid tid nm mp mt d).2] ∧
    (add_playlist_item session iid tid nm mp mt d).2.position
      = session.playlist_items.length ∧
    (add_playlist_item session iid tid nm mp mt d).1.playback_state
      = session.playback_state ∧
    (session.playback_track_id = none →
      (add_playlist_item session iid tid nm mp mt d).1.playback_track_id = some tid) ∧
    (∀ t, session.playback_track_id = some t →
      (add_playlist_item session iid tid nm mp mt d).1.playback_track_id = some t) := by
  refine ⟨rfl, rfl, rfl, ?_, ?_⟩
  · intro h
    unfold add_playlist_item
    rw [h]
  · intro t h
    unfold add_playlist_item
    rw [h]

/-- C8 witness: the add theorem applied to the fresh session (null track
reference: the first add selects the new track). -/
theorem C8_witness :
    sessFresh.playback_track_id = none ∧
    (add_playlist_item sessFresh "i1" "t1" "Name" "m" "audio/mpeg" none).2.position
      = sessFresh.playlist_items.length ∧
    (add_playlist_item sessFresh "i1" "t1" "Name" "m" "audio/mpeg" none).1.playback_state
      = sessFresh.playback_state ∧
    (add_playlist_item sessFresh "i1" "t1" "Name" "m" "audio/mpeg" none).1.playback_track_id
      = some "t1" := by
  have h := C8_add_semantics sessFresh "i1" "t1" "Name" "m" "audio/mpeg" none
  exact ⟨by decide, h.2.1, h.2.2.1, h.2.2.2.1 (by decide)⟩

/-- C1 witness: the invariant theorem applied to the fresh session and
the sample operation sequence. -/
theorem C1_witness :
    validPositions sessFresh.playlist_items ∧
    validPositions ((sampleOps.foldl applyOp sessFresh).playlist_items) ∧
    positionsExact ((sampleOps.foldl applyOp sessFresh).playlist_items) :=
  ⟨by decide, (C1_positions_invariant sessFresh sampleOps (by decide)).1,
    (C1_positions_invariant sessFresh sampleOps (by decide)).2⟩

/-- C2 witness: the stability theorem applied to `sessABC` with item
`iC` reordered to position 0. -/
theorem C2_witness :
    (sessABC.playlist_items.map (fun e => e.id)).Nodup ∧
    reorder_playlist sessABC "iC" 0 = .ok reorderedABC ∧
    (reorderedABC.playlist_items.map (fun e => e.id)).erase "iC"
      = ((sortByPosition sessABC.playlist_items).map (fun e => e.id)).erase "iC" :=
  ⟨by decide, by decide,
    C2_reorder_stable sessABC "iC" 0 reorderedABC (by decide) (by decide)⟩

/-- C7 witness: the removal theorem applied to `sessABC` with the
current track's item `iA` removed — playback moves to the new first item
`b`, position and mode untouched. -/
theorem C7_witness :
    validPositions sessABC.playlist_items ∧
    remove_playlist_item sessABC "iA" = .ok removedAResult ∧
    sessABC.playlist_items.find? (fun e => e.id = "iA") = some (sampleItem "iA" "a" 0) ∧
    sessABC.playback_track_id = some (sampleItem "iA" "a" 0).track_id ∧
    removedAResult.playback_position_ms = sessABC.playback_position_ms ∧
    removedAResult.playback_state = sessABC.playback_state ∧
    removedAResult.playback_track_id
      = removedAResult.playlist_items.head?.map (fun e => e.track_id) := by
  have h := C7_remove_playback sessABC "iA" removedAResult (by decide) (by decide)
  exact ⟨by decide, by decide, by decide, by decide, h.1, h.2.1,
    (h.2.2 (sampleItem "iA" "a" 0) (by decide)).1 (by decide)⟩

/-- C10 witness: the range-first theorem applied to an out-of-range
reorder on `sessABC` and to a reorder on the empty playlist, both with
an absent item id. -/
theorem C10_witness :
    ((5 : Int) < 0 ∨ (sessABC.playlist_items.length : Int) ≤ 5) ∧
    reorder_playlist sessABC "nope" 5 = .error .badRequest ∧
    sessFresh.playlist_items = [] ∧
    reorder_playlist sessFresh "nope" 0 = .error .badRequest :=
  ⟨by decide, (C10_range_check_first sessABC "nope" 5).1 (by decide),
    by decide, (C10_range_check_first sessFresh "nope" 0).2 (by decide)⟩

end MusicPlayer
